import Mathlib

/-!
Verification development for the NMount mount-orchestration core
(`src/NMount.py`).  Python string and list operations are shallowly
embedded over `List Char` / `List String`; stateful methods are embedded
as explicit state-passing functions, and invocations of external tools
are embedded as an environment record supplying each tool's exit code
and output.
-/

namespace NMount

/-! ## Python string primitives

Each helper mirrors one Python `str`/`list` operation, restricted to the
ASCII range actually produced by the external tools (`udisksctl`,
`lsblk`).
-/

/-- ASCII whitespace, matching the characters `str.split()` and
`str.strip()` treat as separators for tool output. -/
def isSpaceChar (c : Char) : Bool :=
  c == ' ' || c == '\t' || c == '\n' || c == '\r' || c == '\x0b' || c == '\x0c'

/-- Helper for `str.split()`'s whitespace tokenizer: `cur` is the
(reversed) token being accumulated. -/
def tokenizeGo (cur : List Char) : List Char → List (List Char)
  | [] => if cur.isEmpty then [] else [cur.reverse]
  | c :: cs =>
    if isSpaceChar c then
      if cur.isEmpty then tokenizeGo [] cs
      else cur.reverse :: tokenizeGo [] cs
    else tokenizeGo (c :: cur) cs

/-- Python `s.split()` (no argument): whitespace-delimited tokens, with
no empty tokens. -/
def toTokens (s : String) : List String :=
  (tokenizeGo [] s.data).map String.mk

/-- Python `s.strip()`. -/
def pyStrip (s : String) : String :=
  String.mk (((s.data.dropWhile isSpaceChar).reverse.dropWhile isSpaceChar).reverse)

/-- Python `s.rstrip(".;")`: drop trailing `.` and `;` characters. -/
def pyRstripDotSemi (s : String) : String :=
  String.mk ((s.data.reverse.dropWhile (fun c => c == '.' || c == ';')).reverse)

/-- List-level character comparison underlying Python `s.startswith(p)`. -/
def listLeads : List Char → List Char → Bool
  | [], _ => true
  | _ :: _, [] => false
  | p :: ps, c :: cs => p == c && listLeads ps cs

/-- Python `s.startswith(p)`. -/
def pyStartsWith (s p : String) : Bool :=
  listLeads p.data s.data

/-- Python `s.replace("/dev/loop", "")`: delete every (left-to-right,
non-overlapping) occurrence of the nine-character pattern. -/
def delLoopPat : List Char → List Char
  | '/' :: 'd' :: 'e' :: 'v' :: '/' :: 'l' :: 'o' :: 'o' :: 'p' :: rest => delLoopPat rest
  | c :: rest => c :: delLoopPat rest
  | [] => []

/-- Python `s.replace("/dev/loop", "")` at the `String` level. -/
def pyReplaceLoopDel (s : String) : String :=
  String.mk (delLoopPat s.data)

/-- Python `s.replace("p", "")`: deleting every occurrence of a
single-character pattern is a filter. -/
def pyDeleteP (s : String) : String :=
  String.mk (s.data.filter (fun c => c != 'p'))

/-- Python `s.isdigit()` (restricted to ASCII digits, which is what the
parsed tool output can contain): non-empty and all digits. -/
def pyIsDigit (s : String) : Bool :=
  !s.data.isEmpty && s.data.all Char.isDigit

/-- Python `s.lower()` (ASCII). -/
def pyLower (s : String) : String :=
  String.mk (s.data.map Char.toLower)

/-- Split on newline characters, keeping empty segments. -/
def splitOnNl : List Char → List (List Char)
  | [] => [[]]
  | c :: cs =>
    if c == '\n' then [] :: splitOnNl cs
    else
      match splitOnNl cs with
      | [] => [[c]]
      | h :: t => (c :: h) :: t

/-- Python `s.splitlines()` for `\n`-separated tool output: no trailing
empty line is produced for a trailing newline, and `""` gives `[]`. -/
def pySplitLines (s : String) : List String :=
  if s.data.isEmpty then []
  else
    let raw := splitOnNl s.data
    (if s.data.getLast? = some '\n' then raw.dropLast else raw).map String.mk

/-! ## Loop-device output parsing (`do_mount`, lines 1433-1443)

The source scans `udisksctl loop-setup` output token by token:

    for token in out.split():
        token = token.strip().rstrip(".;")
        if token.startswith("/dev/loop") and \
           token.replace("/dev/loop", "").replace("p", "").isdigit():
            dev = token
            break
-/

/-- The acceptance test applied to each cleaned token. -/
def loopTokenOk (t : String) : Bool :=
  pyStartsWith t "/dev/loop" && pyIsDigit (pyDeleteP (pyReplaceLoopDel t))

/-- Loop-device parser of `do_mount`: first cleaned token passing
`loopTokenOk`, or none. -/
def parse_loop_dev (out : String) : Option String :=
  ((toTokens out).map (fun tok => pyRstripDotSemi (pyStrip tok))).find? loopTokenOk

/-- Predicate written from the words of claim C9: the token (already
cleaned) starts with `/dev/loop` and its remaining suffix (the text
after that prefix) becomes a non-empty digit string after deleting every
`p` character. -/
def claimLoopTokenOk (t : String) : Bool :=
  pyStartsWith t "/dev/loop" && pyIsDigit (pyDeleteP (String.mk (t.data.drop 9)))

/-! ## Mount-point output parsing (`do_mount`, lines 1478-1492) -/

/-- Recognized mount-root path beginnings. -/
def mountRootOk (c : String) : Bool :=
  pyStartsWith c "/run/media/" || pyStartsWith c "/media/" || pyStartsWith c "/mnt/"

/-- Mount-point parser of `do_mount`: first token whose cleaned form
begins with a recognized mount root; otherwise the token following the
first literal token `at`, if any. -/
def parse_mount_point (out2 : String) : Option String :=
  let parts := toTokens out2
  match (parts.find? (fun p => mountRootOk (pyRstripDotSemi p))).map pyRstripDotSemi with
  | some c => some c
  | none =>
    match parts.findIdx? (fun p => p == "at") with
    | some idx => (parts.get? (idx + 1)).map pyRstripDotSemi
    | none => none

/-- The recorded mount point: `self.mount_point = mp_auto or "(unknown)"`
(Python `or`, so an empty parsed string also falls back). -/
def recordedMountPoint (out2 : String) : String :=
  match parse_mount_point out2 with
  | some s => if s.data.isEmpty then "(unknown)" else s
  | none => "(unknown)"

/-! ## Block Device Resolver (`pick_mountable_block`, `list_child_partitions`) -/

/-- The fixed filesystem-type preference order of `pick_mountable_block`. -/
def preferOrder : List String :=
  ["iso9660", "udf", "vfat", "squashfs", "ext4", "ext3", "ext2"]

/-- Candidate extraction from `lsblk -nrpo FSTYPE,PATH` output: per line,
take the first two whitespace tokens as `(fstype, path)`, keep entries
with a detected filesystem type (`fstype` non-empty and not `"-"`),
lower-casing the type. -/
def parseFsCandidates (out : String) : List (String × String) :=
  (pySplitLines out).filterMap (fun line =>
    match toTokens (pyStrip line) with
    | fstype :: path :: _ =>
      if fstype != "" && fstype != "-" then some (pyLower fstype, path) else none
    | _ => none)

/-- Selection loop of `pick_mountable_block`: first preferred type that
has a candidate wins (first such candidate in list order); otherwise the
first candidate; otherwise the base device. -/
def pickFromCandidates (cands : List (String × String)) (base : String) : String :=
  match preferOrder.findSome? (fun want => (cands.find? (fun c => c.1 == want)).map Prod.snd) with
  | some p => p
  | none =>
    match cands with
    | [] => base
    | c :: _ => c.2

/-- Embedding of `pick_mountable_block` over the `lsblk` invocation's
exit code and output. -/
def pick_mountable_block (rc : Nat) (out : String) (base_loop_dev : String) : String :=
  if rc = 0 && pyStrip out != "" then pickFromCandidates (parseFsCandidates out) base_loop_dev
  else base_loop_dev

/-- Embedding of `list_child_partitions` over the `lsblk -nrpo TYPE,PATH`
invocation's exit code and output. -/
def list_child_partitions (rc : Nat) (out : String) : List String :=
  if rc = 0 && pyStrip out != "" then
    (pySplitLines out).filterMap (fun line =>
      let l := pyStrip line
      if l.data.isEmpty then none
      else
        match toTokens l with
        | t :: path :: _ =>
          if t == "part" && pyStartsWith path "/dev/" then some path else none
        | _ => none)
  else []

/-! ## Config documents (`read_conf` / `write_conf` and friends)

The persisted JSON document is embedded as a structure whose fields are
`Option`-valued (a `none` field is an absent key, matching
`data.get(key, default)` in the source).
-/

/-- The `last_mount` sub-document. -/
structure LastMount where
  iso_path : Option String
  loop_device : Option String
  mount_device : Option String
  mount_point : Option String
deriving DecidableEq, Repr

/-- The empty `last_mount` dict `{}`. -/
def emptyLastMount : LastMount :=
  ⟨none, none, none, none⟩

/-- The flat persisted configuration document (§3 of the spec, keys as
in the source). -/
structure Conf where
  installed : Option Bool
  mount_base : Option String
  autostart : Option Bool
  auto_unmount_on_exit : Option Bool
  files : Option (List String)
  language : Option String
  theme : Option String
  polkit_rule : Option Bool
  recent_files : Option (List String)
  last_mount : Option LastMount
deriving DecidableEq, Repr

/-- The empty document `{}` returned when nothing can be read. -/
def emptyConf : Conf :=
  ⟨none, none, none, none, none, none, none, none, none, none⟩

/-- What reading one backing file can encounter: missing file, a read
that raises `OSError` (e.g. permission denied), content that fails JSON
or Unicode decoding, or a well-formed document.  JSON serialization of a
document is faithful (`json.dumps`/`json.loads` round-trip on the
schema's value types), so a well-formed file is embedded as the document
it holds. -/
inductive FileContent where
  | absent
  | unreadable
  | corrupt
  | valid (d : Conf)
deriving DecidableEq, Repr

/-- The three backing files of the Config Store: `config.json`, the
`.json.bak` sidecar, and the `.json.tmp` sidecar. -/
structure ConfFS where
  primary : FileContent
  bak : FileContent
  tmp : FileContent
deriving DecidableEq, Repr

/-- Embedding of `read_conf`.  The primary read only catches
`json.JSONDecodeError` and `UnicodeError`; an `OSError` while reading an
existing primary file propagates (`.error`).  The backup read catches
`JSONDecodeError`, `OSError` and `UnicodeError`, falling through to the
empty document. -/
def read_conf (fs : ConfFS) : Except Unit Conf :=
  match fs.primary with
  | .valid d => .ok d
  | .corrupt =>
    match fs.bak with
    | .valid d => .ok d
    | _ => .ok emptyConf
  | .unreadable => .error ()
  | .absent => .ok emptyConf

/-- Backup step of `write_conf`: if the primary exists, `shutil.copy2`
it onto the `.bak` sidecar; a copy failure (unreadable primary) is
swallowed. -/
def writeBackupStep (fs : ConfFS) : ConfFS :=
  match fs.primary with
  | .absent => fs
  | .unreadable => fs
  | p => { fs with bak := p }

/-- Temp-file step of `write_conf`: serialize the document into the
`.json.tmp` sidecar. -/
def writeTmpStep (d : Conf) (fs : ConfFS) : ConfFS :=
  { fs with tmp := .valid d }

/-- Atomic-replace step of `write_conf`: `temp_file.replace(CONF_FILE)`. -/
def writeReplaceStep (fs : ConfFS) : ConfFS :=
  { fs with primary := fs.tmp, tmp := .absent }

/-- Embedding of a completed `write_conf data`. -/
def write_conf (d : Conf) (fs : ConfFS) : ConfFS :=
  writeReplaceStep (writeTmpStep d (writeBackupStep fs))

/-- Filesystem state if the process crashes after writing the temporary
sidecar but before the atomic replace. -/
def write_conf_crash_before_replace (d : Conf) (fs : ConfFS) : ConfFS :=
  writeTmpStep d (writeBackupStep fs)

/-! ## Recent-files list (`add_to_recent_files`) -/

/-- List transformation of `add_to_recent_files`: remove the first
occurrence of `filepath` if present (`list.remove`), insert at the
front, keep the first `max_items` entries. -/
def add_to_recent (filepath : String) (max_items : Nat) (recent : List String) : List String :=
  (filepath :: recent.erase filepath).take max_items

/-- Embedding of `add_to_recent_files` at the document level (the
default `max_items` is 10). -/
def add_to_recent_files (filepath : String) (conf : Conf) : Conf :=
  { conf with recent_files := some (add_to_recent filepath 10 (conf.recent_files.getD [])) }

/-! ## Uninstall config reset (`uninstall_self`, lines 675-685) -/

/-- Default mount base `str(DEFAULT_MOUNT_BASE)`; the concrete value is
`$HOME/mnt/nmount` and depends on the environment, so it is fixed here
as an opaque-valued constant string. -/
def default_mount_base : String :=
  "HOME/mnt/nmount"

/-- The replacement document `new_conf` built by `uninstall_self` before
`write_conf(new_conf)`: keys not listed in the dict literal are absent. -/
def uninstall_new_conf (data : Conf) : Conf :=
  { installed := some false
    mount_base := some (data.mount_base.getD default_mount_base)
    autostart := some false
    auto_unmount_on_exit := none
    files := some []
    language := some (data.language.getD "en")
    theme := some (data.theme.getD "Light Minimal")
    polkit_rule := some false
    recent_files := none
    last_mount := some emptyLastMount }

/-! ## Permission state (`has_permission_rules`, `__init__` line 865)

The query takes the two external sources as booleans: the persisted
`polkit_rule` flag as read from the config, and whether the polkit rule
file is present on disk.
-/

/-- The internal readiness cache `self._perms_fixed`. -/
structure PermCache where
  perms_fixed : Bool
deriving DecidableEq, Repr

/-- Cache seeding in `__init__`:
`self._perms_fixed = bool(conf0.get("polkit_rule")) or polkit_rule_present()`. -/
def initPermCache (confPolkitRule rulePresent : Bool) : PermCache :=
  ⟨confPolkitRule || rulePresent⟩

/-- Embedding of `has_permission_rules`: a set cache short-circuits to
`True`; otherwise the conjunction of both sources is computed, stored in
the cache, and returned. -/
def has_permission_rules (st : PermCache) (confPolkitRule rulePresent : Bool) :
    Bool × PermCache :=
  if st.perms_fixed then (true, st)
  else
    let result := confPolkitRule && rulePresent
    (result, ⟨result⟩)

/-! ## Loop & Mount Driver (`do_mount`, `do_unmount`)

External tool invocations are embedded as an environment record: for
each tool call the environment supplies its exit code and captured
output.  The settle step (`udevadm settle` / `partprobe` /
`blockdev --rereadpt`) swallows every failure and contributes nothing to
the observable result, so it needs no environment data.
-/

/-- Environment of one `do_mount` execution: behaviour of each external
tool invocation the method can make. -/
structure MountEnv where
  /-- `udisksctl` was found on `PATH`. -/
  udisksctl : Bool
  /-- `udisksctl loop-setup -r -f iso`: exit code and stdout. -/
  loopSetupRc : Nat
  loopSetupOut : String
  /-- `lsblk -nrpo FSTYPE,PATH dev` (used by `pick_mountable_block`). -/
  lsblkFsRc : Nat
  lsblkFsOut : String
  /-- `udisksctl mount -b d --options ro`: exit code and stdout per device. -/
  mountRc : String → Nat
  mountOut : String → String
  /-- `lsblk -nrpo TYPE,PATH dev` (used by `list_child_partitions`). -/
  lsblkPartsRc : Nat
  lsblkPartsOut : String

/-- Preconditions `do_mount` checks before provisioning, as observed by
the method. -/
structure MountPre where
  /-- Result of the `has_permission_rules()` gate. -/
  hasPerms : Bool
  /-- Text of the path field (the method strips it). -/
  iso : String
  /-- `Path(iso).is_file()`. -/
  isoIsFile : Bool
  /-- `self.loop_device` before the call. -/
  loop_device : Option String
  /-- `self.mount_point` before the call. -/
  mount_point : Option String

/-- Result of one `do_mount` execution. -/
inductive MountStatus where
  | errNotReady
  | errNoIso
  | errBadPath
  | errAlreadyMounted
  | errNoTool
  | errLoopSetup
  | errNoLoopDevice
  | errMountFail
  | mounted (dev mountDev mountPoint : String)
deriving DecidableEq, Repr

/-- Partition-fallback loop of `do_mount`: try `udisksctl mount` on each
child partition in order, returning the first that mounts. -/
def tryPartitions (env : MountEnv) : List String → Option String
  | [] => none
  | p :: rest => if env.mountRc p = 0 then some p else tryPartitions env rest

/-- Embedding of `do_mount`.  The second component of the result is the
list of devices passed to `udisksctl loop-delete` during the execution
(the rollback trace). -/
def do_mount (pre : MountPre) (env : MountEnv) : MountStatus × List String :=
  if !pre.hasPerms then (.errNotReady, [])
  else if (pyStrip pre.iso).data.isEmpty then (.errNoIso, [])
  else if !pre.isoIsFile then (.errBadPath, [])
  else if pre.loop_device.isSome || pre.mount_point.isSome then (.errAlreadyMounted, [])
  else if !env.udisksctl then (.errNoTool, [])
  else if env.loopSetupRc ≠ 0 then (.errLoopSetup, [])
  else
    match parse_loop_dev env.loopSetupOut with
    | none => (.errNoLoopDevice, [])
    | some dev =>
      let mountDev := pick_mountable_block env.lsblkFsRc env.lsblkFsOut dev
      if env.mountRc mountDev = 0 then
        (.mounted dev mountDev (recordedMountPoint (env.mountOut mountDev)), [])
      else
        match tryPartitions env (list_child_partitions env.lsblkPartsRc env.lsblkPartsOut) with
        | some part => (.mounted dev part (recordedMountPoint (env.mountOut part)), [])
        | none => (.errMountFail, [dev])

/-- State touched by `do_unmount`: the current single-mount fields, the
multi-mount list (as the loop devices of its records), and the persisted
`last_mount` document. -/
structure UnmountState where
  loop_device : Option String
  mount_device : Option String
  mount_point : Option String
  mounted_isos : List LastMount
  conf_last_mount : Option LastMount
deriving DecidableEq, Repr

/-- Environment of one `do_unmount` execution. -/
structure UnmountEnv where
  udisksctl : Bool
  /-- `udisksctl unmount -b d` exit code per device. -/
  unmountRc : String → Nat
  /-- `udisksctl loop-delete -b d` exit code per device. -/
  loopDeleteRc : String → Nat

/-- External calls `do_unmount` makes, in order. -/
inductive UnmountCall where
  | unmount (dev : String)
  | loopDelete (dev : String)
deriving DecidableEq, Repr

/-- Result of one `do_unmount` execution. -/
inductive UnmountStatus where
  | errNothingMounted
  | errNoTool
  | errUnmountFailed
  | errLoopDeleteFailed
  | ok
deriving DecidableEq, Repr

/-- Embedding of `do_unmount`: returns the status, the state after the
call, and the trace of external calls made. -/
def do_unmount (st : UnmountState) (env : UnmountEnv) :
    UnmountStatus × UnmountState × List UnmountCall :=
  match st.mount_point, st.loop_device with
  | some _, some dev =>
    let mdev := st.mount_device.getD dev
    if !env.udisksctl then (.errNoTool, st, [])
    else if env.unmountRc mdev ≠ 0 then (.errUnmountFailed, st, [.unmount mdev])
    else if env.loopDeleteRc dev ≠ 0 then
      (.errLoopDeleteFailed, st, [.unmount mdev, .loopDelete dev])
    else
      (.ok,
        { loop_device := none
          mount_device := none
          mount_point := none
          mounted_isos := st.mounted_isos.filter (fun m => m.loop_device != some dev)
          conf_last_mount :=
            match st.conf_last_mount with
            | some _ => some emptyLastMount
            | none => none },
        [.unmount mdev, .loopDelete dev])
  | _, _ => (.errNothingMounted, st, [])

/-- A precondition record that passes every `do_mount` guard. -/
def simplePre : MountPre :=
  { hasPerms := true
    iso := "/a.iso"
    isoIsFile := true
    loop_device := none
    mount_point := none }

/-- A concrete environment in which loop setup and mount succeed but the
mount tool's output reports no mount point at all. -/
def unreportedEnv : MountEnv :=
  { udisksctl := true
    loopSetupRc := 0
    loopSetupOut := "Mapped file a.iso as /dev/loop0."
    lsblkFsRc := 1
    lsblkFsOut := ""
    mountRc := fun _ => 0
    mountOut := fun _ => "ok"
    lsblkPartsRc := 1
    lsblkPartsOut := "" }

/-- A concrete environment in which loop setup succeeds but every mount
attempt (base device and any partition) fails. -/
def allMountsFailEnv : MountEnv :=
  { udisksctl := true
    loopSetupRc := 0
    loopSetupOut := "Mapped file a.iso as /dev/loop0."
    lsblkFsRc := 1
    lsblkFsOut := ""
    mountRc := fun _ => 1
    mountOut := fun _ => ""
    lsblkPartsRc := 1
    lsblkPartsOut := "" }

end NMount

example : NMount.parse_loop_dev "Mapped file a.iso as /dev/loop0." = some "/dev/loop0" := by decide

example : NMount.parse_loop_dev "/dev/loop" = none := by decide

example : NMount.parse_loop_dev "x /dev/loop0p1;" = some "/dev/loop0p1" := by decide

example : NMount.parse_loop_dev "/dev/loop/dev/loop0" = some "/dev/loop/dev/loop0" := by decide

example : NMount.claimLoopTokenOk "/dev/loop/dev/loop0" = false := by decide

example : NMount.parse_mount_point "Mounted /dev/loop0 at /run/media/user/ISOIMAGE." =
    some "/run/media/user/ISOIMAGE" := by decide

example : NMount.recordedMountPoint "xyz" = "(unknown)" := by decide

example : NMount.recordedMountPoint "mounted at /tmp/z." = "/tmp/z" := by decide

example : NMount.pickFromCandidates [("ext4", "/dev/loop0p1"), ("iso9660", "/dev/loop0p2")] "/dev/loop0" = "/dev/loop0p2" := rfl

example : NMount.pick_mountable_block 0 "iso9660 /dev/loop0\n" "/dev/loop0" = "/dev/loop0" := by decide

example : NMount.pick_mountable_block 0 "ISO9660 /dev/loop0p7\n" "/dev/loop0" = "/dev/loop0p7" := by decide

example : NMount.pick_mountable_block 1 "iso9660 /dev/loop0p7\n" "/dev/loop0" = "/dev/loop0" := by decide

example : NMount.list_child_partitions 0 "part /dev/loop0p1\ndisk /dev/loop0\npart /dev/loop0p2" = ["/dev/loop0p1", "/dev/loop0p2"] := by decide

example : NMount.add_to_recent "b" 10 ["a", "a"] = ["b", "a", "a"] := by decide

example : (NMount.has_permission_rules (NMount.initPermCache true false) true false).1 = true := by decide

namespace NMount

/-! ## Shared helper lemmas -/

/-- A `findSome?` over a list on which the function is everywhere `none`
yields `none`. -/
theorem findSome?_none_of_all {α β : Type} (f : α → Option β) :
    ∀ l : List α, (∀ a ∈ l, f a = none) → l.findSome? f = none := by
  intro l h
  induction l with
  | nil => rfl
  | cons a t ih =>
    rw [List.findSome?_cons]
    rw [h a (by simp)]
    exact ih (fun x hx => h x (by simp [hx]))

/-- A `findIdx?` whose predicate is everywhere false yields `none`, for
any starting index. -/
theorem findIdx?_none_of_all {α : Type} (p : α → Bool) :
    ∀ (l : List α) (i : Nat), (∀ a ∈ l, p a = false) → List.findIdx? p l i = none := by
  intro l
  induction l with
  | nil => intro i _; rfl
  | cons a t ih =>
    intro i h
    rw [List.findIdx?_cons]
    simp only [h a (by simp), cond_false]
    exact ih (i + 1) (fun x hx => h x (by simp [hx]))

/-! ## C1 — permission-state query -/

/-- Claim C1 counterexample: seeded from a config whose `polkit_rule`
flag is set while the rule file is absent on disk, the query returns
`true` even though the conjunction of the two sources is `false` — the
internal cache (`_perms_fixed`, initialised with OR, not AND)
short-circuits the dual check. -/
theorem c1_counterexample :
    (has_permission_rules (initPermCache true false) true false).1 ≠ (true && false) := by
  decide

/-- Claim C1 (amended): the query returns true iff the internal cache
`_perms_fixed` is set or both the persisted `polkit_rule` flag and the
on-disk rule file are present; only when the cache is unset is the
conjunction of both sources recomputed (and then stored in the cache),
and at startup the cache is seeded with the disjunction of the two
sources, so the result is cached rather than recomputed on every
query. -/
theorem c1_permission_state_amended (st : PermCache) (cf fp : Bool) :
    (has_permission_rules st cf fp).1 = (st.perms_fixed || (cf && fp)) ∧
    ((has_permission_rules st cf fp).2).perms_fixed = (st.perms_fixed || (cf && fp)) ∧
    (st.perms_fixed = false → (has_permission_rules st cf fp).1 = (cf && fp)) ∧
    (initPermCache cf fp).perms_fixed = (cf || fp) := by
  obtain ⟨b⟩ := st
  cases b <;> simp [has_permission_rules, initPermCache]

/-- Witness for `c1_permission_state_amended` at a concrete unset cache. -/
theorem c1_permission_state_amended_witness :
    (has_permission_rules ⟨false⟩ true true).1 = (false || (true && true)) ∧
    ((has_permission_rules ⟨false⟩ true true).2).perms_fixed = (false || (true && true)) ∧
    (has_permission_rules ⟨false⟩ true true).1 = (true && true) ∧
    (initPermCache true true).perms_fixed = (true || true) :=
  ⟨(c1_permission_state_amended ⟨false⟩ true true).1,
   (c1_permission_state_amended ⟨false⟩ true true).2.1,
   (c1_permission_state_amended ⟨false⟩ true true).2.2.1 rfl,
   (c1_permission_state_amended ⟨false⟩ true true).2.2.2⟩

/-! ## C4 — Config Store round-trip -/

/-- Claim C4: writing a document and reading it back returns the same
document, and a crash between the temp-sidecar write and the atomic
replace leaves a read returning the prior valid version. -/
theorem c4_config_roundtrip (d c0 : Conf) (fs fs0 : ConfFS)
    (h : fs0.primary = .valid c0) :
    read_conf (write_conf d fs) = .ok d ∧
    read_conf (write_conf_crash_before_replace d fs0) = .ok c0 := by
  constructor
  · obtain ⟨p, b, t⟩ := fs
    cases p <;> rfl
  · obtain ⟨p, b, t⟩ := fs0
    simp only [ConfFS.primary] at h
    subst h
    rfl

/-- Witness for `c4_config_roundtrip` on concrete documents and file
states. -/
theorem c4_config_roundtrip_witness :
    (ConfFS.primary ⟨.valid emptyConf, .absent, .absent⟩ = .valid emptyConf) ∧
    (read_conf (write_conf (add_to_recent_files "/a.iso" emptyConf)
        ⟨.corrupt, .absent, .absent⟩) = .ok (add_to_recent_files "/a.iso" emptyConf) ∧
     read_conf (write_conf_crash_before_replace (add_to_recent_files "/a.iso" emptyConf)
        ⟨.valid emptyConf, .absent, .absent⟩) = .ok emptyConf) :=
  ⟨rfl, c4_config_roundtrip (add_to_recent_files "/a.iso" emptyConf) emptyConf
    ⟨.corrupt, .absent, .absent⟩ ⟨.valid emptyConf, .absent, .absent⟩ rfl⟩

/-! ## C5 — read_conf never fails -/

/-- Claim C5 counterexample: with an existing but unreadable primary
file (an `OSError` such as permission denied, which the primary read
does not catch) `read_conf` fails, even though a perfectly valid backup
sidecar exists — so it neither attempts the backup nor returns an empty
document. -/
theorem c5_counterexample :
    read_conf ⟨.unreadable, .valid emptyConf, .absent⟩ = .error () := rfl

/-- Claim C5 (amended): `read_conf` never fails when the primary file is
absent, well-formed, or corrupt in the decode sense: on a decode failure
it attempts the `.bak` sidecar and returns the empty document when the
sidecar is not well-formed either; but an OS-level read error on an
existing primary file (only decode and Unicode errors are caught there)
propagates to the caller. -/
theorem c5_read_conf_amended (fs : ConfFS) :
    (fs.primary ≠ .unreadable → ∃ c, read_conf fs = .ok c) ∧
    (∀ d : Conf, fs.primary = .corrupt → fs.bak = .valid d → read_conf fs = .ok d) ∧
    (fs.primary = .corrupt → (∀ d : Conf, fs.bak ≠ .valid d) → read_conf fs = .ok emptyConf) ∧
    (fs.primary = .absent → read_conf fs = .ok emptyConf) ∧
    (∀ d : Conf, fs.primary = .valid d → read_conf fs = .ok d) := by
  obtain ⟨p, b, t⟩ := fs
  refine ⟨?_, ?_, ?_, ?_, ?_⟩
  · intro hp
    cases p with
    | absent => exact ⟨emptyConf, rfl⟩
    | unreadable => exact absurd rfl hp
    | valid d => exact ⟨d, rfl⟩
    | corrupt =>
      cases b with
      | valid d => exact ⟨d, rfl⟩
      | absent => exact ⟨emptyConf, rfl⟩
      | unreadable => exact ⟨emptyConf, rfl⟩
      | corrupt => exact ⟨emptyConf, rfl⟩
  · intro d hp hb
    simp only [ConfFS.primary] at hp
    simp only [ConfFS.bak] at hb
    subst hp; subst hb; rfl
  · intro hp hb
    simp only [ConfFS.primary] at hp
    subst hp
    cases b with
    | valid d => exact absurd rfl (hb d)
    | absent => rfl
    | unreadable => rfl
    | corrupt => rfl
  · intro hp
    simp only [ConfFS.primary] at hp
    subst hp; rfl
  · intro d hp
    simp only [ConfFS.primary] at hp
    subst hp; rfl

/-- Witness for `c5_read_conf_amended` on a concrete corrupt-primary
state with a valid backup: the backup's document is returned. -/
theorem c5_read_conf_amended_witness :
    read_conf ⟨.corrupt, .valid emptyConf, .absent⟩ = .ok emptyConf :=
  (c5_read_conf_amended ⟨.corrupt, .valid emptyConf, .absent⟩).2.1 emptyConf rfl rfl

/-! ## C10 — uninstall config reset -/

/-- Claim C10: the replacement config written by `uninstall_self` resets
`installed`, `autostart`, `polkit_rule` to false, `files` to the empty
list and `last_mount` to the empty record, while `mount_base`,
`language` and `theme` are carried over unchanged when they were present
and fall back to their defaults only when previously absent. -/
theorem c10_uninstall_reset (data : Conf) :
    (uninstall_new_conf data).installed = some false ∧
    (uninstall_new_conf data).autostart = some false ∧
    (uninstall_new_conf data).files = some [] ∧
    (uninstall_new_conf data).polkit_rule = some false ∧
    (uninstall_new_conf data).last_mount = some emptyLastMount ∧
    (∀ b, data.mount_base = some b → (uninstall_new_conf data).mount_base = some b) ∧
    (data.mount_base = none → (uninstall_new_conf data).mount_base = some default_mount_base) ∧
    (∀ l, data.language = some l → (uninstall_new_conf data).language = some l) ∧
    (data.language = none → (uninstall_new_conf data).language = some "en") ∧
    (∀ t, data.theme = some t → (uninstall_new_conf data).theme = some t) ∧
    (data.theme = none → (uninstall_new_conf data).theme = some "Light Minimal") := by
  refine ⟨rfl, rfl, rfl, rfl, rfl, ?_, ?_, ?_, ?_, ?_, ?_⟩ <;>
    first
      | (intro b hb; simp [uninstall_new_conf, hb])
      | (intro hb; simp [uninstall_new_conf, hb])

/-- Witness for `c10_uninstall_reset` on a concrete document that has a
`mount_base` and `theme` but no `language`. -/
theorem c10_uninstall_reset_witness :
    (uninstall_new_conf ⟨some true, some "/base", some true, some true, some ["/f"],
        none, some "Dark", some true, some ["/a.iso"], none⟩).mount_base = some "/base" ∧
    (uninstall_new_conf ⟨some true, some "/base", some true, some true, some ["/f"],
        none, some "Dark", some true, some ["/a.iso"], none⟩).language = some "en" ∧
    (uninstall_new_conf ⟨some true, some "/base", some true, some true, some ["/f"],
        none, some "Dark", some true, some ["/a.iso"], none⟩).theme = some "Dark" ∧
    (uninstall_new_conf ⟨some true, some "/base", some true, some true, some ["/f"],
        none, some "Dark", some true, some ["/a.iso"], none⟩).installed = some false :=
  ⟨(c10_uninstall_reset _).2.2.2.2.2.1 "/base" rfl,
   (c10_uninstall_reset _).2.2.2.2.2.2.2.2.1 rfl,
   (c10_uninstall_reset _).2.2.2.2.2.2.2.2.2.1 "Dark" rfl,
   (c10_uninstall_reset _).1⟩

end NMount

namespace NMount

/-! ## C6 — block device resolver -/

/-- Claim C6: `pick_mountable_block` selects by the fixed preference
order (so iso9660 outranks ext4 in the given example), returns the first
candidate when no preferred type is present, and returns the base loop
device unchanged when there are no candidates at all (tool failure or
empty output). -/
theorem c6_pick_mountable (base out : String) (rc : Nat)
    (cands : List (String × String)) (c : String × String) (rest : List (String × String)) :
    pickFromCandidates [("ext4", "/dev/loop0p1"), ("iso9660", "/dev/loop0p2")] base =
      "/dev/loop0p2" ∧
    (cands = c :: rest → (∀ x ∈ cands, x.1 ∉ preferOrder) →
      pickFromCandidates cands base = c.2) ∧
    pickFromCandidates [] base = base ∧
    (rc ≠ 0 → pick_mountable_block rc out base = base) ∧
    (pyStrip out = "" → pick_mountable_block rc out base = base) := by
  refine ⟨rfl, ?_, rfl, ?_, ?_⟩
  · intro hc hmem
    have hnone : preferOrder.findSome?
        (fun want => (cands.find? (fun x => x.1 == want)).map Prod.snd) = none := by
      apply findSome?_none_of_all
      intro want hwant
      have : cands.find? (fun x => x.1 == want) = none := by
        rw [List.find?_eq_none]
        intro x hx
        simp only [beq_iff_eq]
        intro hEq
        exact hmem x hx (hEq ▸ hwant)
      rw [this]
      rfl
    rw [pickFromCandidates.eq_def, hnone, hc]
  · intro h
    simp [pick_mountable_block, h]
  · intro h
    simp [pick_mountable_block, h]

/-- Witness for `c6_pick_mountable` at concrete arguments: unknown
filesystem types fall back to the first candidate, and a failed tool
invocation leaves the loop device unchanged. -/
theorem c6_pick_mountable_witness :
    pickFromCandidates [("ext4", "/dev/loop0p1"), ("iso9660", "/dev/loop0p2")] "/dev/loop0" =
      "/dev/loop0p2" ∧
    pickFromCandidates [("weird", "/dev/loop0p9")] "/dev/loop0" = "/dev/loop0p9" ∧
    pickFromCandidates [] "/dev/loop0" = "/dev/loop0" ∧
    pick_mountable_block 1 "iso9660 /dev/loop0p7" "/dev/loop0" = "/dev/loop0" :=
  have h := c6_pick_mountable "/dev/loop0" "iso9660 /dev/loop0p7" 1
    [("weird", "/dev/loop0p9")] ("weird", "/dev/loop0p9") []
  ⟨h.1, h.2.1 rfl (by decide), h.2.2.1, h.2.2.2.1 (by decide)⟩

/-! ## C7 — unmount error handling -/

/-- Claim C7: with an active mount, `do_unmount` invokes the unmount
tool on the mounted device and then deletes the loop device; a failed
unmount surfaces `UnmountFailed` without attempting loop deletion, a
failed loop delete surfaces `LoopDeleteFailed`, and in both failure
cases the in-memory mount record and the persisted last-mount document
are left unchanged. -/
theorem c7_do_unmount (st : UnmountState) (env : UnmountEnv) (dev mdev mp : String)
    (hl : st.loop_device = some dev) (hm : st.mount_point = some mp)
    (hmd : st.mount_device = some mdev) (hu : env.udisksctl = true) :
    (env.unmountRc mdev ≠ 0 →
      do_unmount st env = (.errUnmountFailed, st, [.unmount mdev])) ∧
    (env.unmountRc mdev = 0 → env.loopDeleteRc dev ≠ 0 →
      do_unmount st env = (.errLoopDeleteFailed, st, [.unmount mdev, .loopDelete dev])) ∧
    (env.unmountRc mdev = 0 → env.loopDeleteRc dev = 0 →
      (do_unmount st env).1 = .ok ∧
      (do_unmount st env).2.2 = [.unmount mdev, .loopDelete dev]) := by
  obtain ⟨ld, md, mpf, isos, lm⟩ := st
  simp only [UnmountState.loop_device] at hl
  simp only [UnmountState.mount_device] at hmd
  simp only [UnmountState.mount_point] at hm
  subst hl; subst hmd; subst hm
  refine ⟨?_, ?_, ?_⟩
  · intro h1
    simp [do_unmount, hu, h1]
  · intro h1 h2
    simp [do_unmount, hu, h1, h2]
  · intro h1 h2
    simp [do_unmount, hu, h1, h2]

/-- Witness for `c7_do_unmount` at a concrete active mount whose
loop-delete step fails: the error surfaces with the state unchanged. -/
theorem c7_do_unmount_witness :
    do_unmount
      ⟨some "/dev/loop0", some "/dev/loop0p1", some "/run/media/u/X", [], none⟩
      ⟨true, fun _ => 0, fun _ => 1⟩ =
    (.errLoopDeleteFailed,
      ⟨some "/dev/loop0", some "/dev/loop0p1", some "/run/media/u/X", [], none⟩,
      [.unmount "/dev/loop0p1", .loopDelete "/dev/loop0"]) :=
  (c7_do_unmount
    ⟨some "/dev/loop0", some "/dev/loop0p1", some "/run/media/u/X", [], none⟩
    ⟨true, fun _ => 0, fun _ => 1⟩
    "/dev/loop0" "/dev/loop0p1" "/run/media/u/X" rfl rfl rfl rfl).2.1 rfl (by decide)

end NMount

namespace NMount

/-! ## C8 — recent-files list -/

/-- Claim C8 counterexample: from a prior list state that already
contains duplicates (the config file is plain JSON and can hold any
list), adding a path leaves the duplicates in place — `list.remove`
deletes only the first occurrence — so the resulting list is not
duplicate-free for every prior list state. -/
theorem c8_counterexample :
    add_to_recent "b" 10 ["a", "a"] = ["b", "a", "a"] ∧
    ¬ (add_to_recent "b" 10 ["a", "a"]).Nodup := by
  constructor
  · rfl
  · decide

/-- Claim C8 (amended): for every prior list state, adding a path
places it at the front (whenever the configured maximum is positive),
adding the same path twice in a row leaves the list unchanged, and the
result never exceeds the configured maximum (default 10); the
no-duplicates clause holds only for prior states without duplicates —
`list.remove` deletes just the first occurrence, so duplicates already
present in the prior state can survive — and for duplicate-free prior
states the result is duplicate-free with the added path appearing
exactly once, at the front. -/
theorem c8_recent_files_amended (f : String) (m : Nat) (prior : List String) :
    (add_to_recent f m prior).length ≤ m ∧
    add_to_recent f m (add_to_recent f m prior) = add_to_recent f m prior ∧
    (0 < m → (add_to_recent f m prior).head? = some f) ∧
    (prior.Nodup →
      (add_to_recent f m prior).Nodup ∧
      (0 < m → (add_to_recent f m prior).count f = 1)) := by
  refine ⟨?_, ?_, ?_, ?_⟩
  · rw [add_to_recent, List.length_take]
    exact Nat.min_le_left _ _
  · cases m with
    | zero => rfl
    | succ k =>
      simp only [add_to_recent]
      rw [List.take_succ_cons, List.take_succ_cons, List.erase_cons_head, List.take_take]
      simp
  · intro hm
    obtain ⟨k, rfl⟩ : ∃ k, m = k + 1 := ⟨m - 1, (Nat.succ_pred_eq_of_pos hm).symm⟩
    rw [add_to_recent, List.take_succ_cons]
    rfl
  · intro h
    have hno : f ∉ prior.erase f := fun hmem => by
      have := (List.Nodup.mem_erase_iff h).1 hmem
      exact this.1 rfl
    have hnodup : (f :: prior.erase f).Nodup := List.nodup_cons.2 ⟨hno, h.erase f⟩
    refine ⟨(List.take_sublist m _).nodup hnodup, ?_⟩
    intro hm
    obtain ⟨k, rfl⟩ : ∃ k, m = k + 1 := ⟨m - 1, (Nat.succ_pred_eq_of_pos hm).symm⟩
    rw [add_to_recent, List.take_succ_cons]
    have hnot : f ∉ (prior.erase f).take k :=
      fun hmem => hno ((List.take_sublist k _).mem hmem)
    rw [List.count_cons_self, List.count_eq_zero.2 hnot]

/-- Witness for `c8_recent_files_amended` on a concrete duplicate-free
prior list. -/
theorem c8_recent_files_amended_witness :
    (add_to_recent "a" 10 ["b", "c"]).length ≤ 10 ∧
    add_to_recent "a" 10 (add_to_recent "a" 10 ["b", "c"]) = add_to_recent "a" 10 ["b", "c"] ∧
    (add_to_recent "a" 10 ["b", "c"]).head? = some "a" ∧
    (add_to_recent "a" 10 ["b", "c"]).Nodup ∧
    (add_to_recent "a" 10 ["b", "c"]).count "a" = 1 :=
  have h := c8_recent_files_amended "a" 10 ["b", "c"]
  ⟨h.1, h.2.1, h.2.2.1 (by decide), (h.2.2.2 (by decide)).1,
   (h.2.2.2 (by decide)).2 (by decide)⟩

end NMount

namespace NMount

/-! ## C2 — rollback of the provisioned loop device -/

/-- Claim C2: in every `do_mount` execution that reaches a successfully
provisioned loop device (loop setup exited 0 and a device path was
parsed from its output), the operation either ends in a successful mount
with no loop device deleted, or it fails with the mount error having
deleted exactly the provisioned loop device before returning — no
orphaned loop device on the failure path, while the partition-fallback
retries happen before any deletion. -/
theorem c2_do_mount_rollback (pre : MountPre) (env : MountEnv) (dev : String)
    (h1 : pre.hasPerms = true)
    (h2 : (pyStrip pre.iso).data.isEmpty = false)
    (h3 : pre.isoIsFile = true)
    (h4 : pre.loop_device = none)
    (h5 : pre.mount_point = none)
    (h6 : env.udisksctl = true)
    (h7 : env.loopSetupRc = 0)
    (h8 : parse_loop_dev env.loopSetupOut = some dev) :
    (∃ mdev mpt, do_mount pre env = (.mounted dev mdev mpt, [])) ∨
    do_mount pre env = (.errMountFail, [dev]) := by
  have hmain : do_mount pre env =
      (if env.mountRc (pick_mountable_block env.lsblkFsRc env.lsblkFsOut dev) = 0 then
        (.mounted dev (pick_mountable_block env.lsblkFsRc env.lsblkFsOut dev)
          (recordedMountPoint
            (env.mountOut (pick_mountable_block env.lsblkFsRc env.lsblkFsOut dev))), [])
      else
        match tryPartitions env (list_child_partitions env.lsblkPartsRc env.lsblkPartsOut) with
        | some part => (.mounted dev part (recordedMountPoint (env.mountOut part)), [])
        | none => (.errMountFail, [dev])) := by
    rw [do_mount.eq_def]
    rw [h1, h2, h3, h4, h5, h6, h7, h8]
    simp
  rw [hmain]
  by_cases hm : env.mountRc (pick_mountable_block env.lsblkFsRc env.lsblkFsOut dev) = 0
  · left
    exact ⟨_, _, by rw [if_pos hm]⟩
  · rw [if_neg hm]
    cases htry : tryPartitions env (list_child_partitions env.lsblkPartsRc env.lsblkPartsOut) with
    | none => right; rfl
    | some part => left; exact ⟨part, _, rfl⟩

/-- Witness for `c2_do_mount_rollback` in a concrete environment where
every mount attempt fails: the provisioned `/dev/loop0` is deleted. -/
theorem c2_do_mount_rollback_witness :
    ((∃ mdev mpt, do_mount simplePre allMountsFailEnv =
        (.mounted "/dev/loop0" mdev mpt, [])) ∨
      do_mount simplePre allMountsFailEnv = (.errMountFail, ["/dev/loop0"])) ∧
    do_mount simplePre allMountsFailEnv = (.errMountFail, ["/dev/loop0"]) :=
  ⟨c2_do_mount_rollback simplePre allMountsFailEnv "/dev/loop0"
      rfl (by decide) rfl rfl rfl rfl rfl (by decide),
   by decide⟩

/-! ## C3 — mount-point parsing -/

/-- Claim C3 counterexample: for an output with neither a
recognized-root token nor the word `at`, the recorded mount point is the
sentinel `"(unknown)"`, not the string `"unknown"` the claim states. -/
theorem c3_counterexample :
    (toTokens "xyz").all (fun p => !mountRootOk (pyRstripDotSemi p)) = true ∧
    ((toTokens "xyz").contains "at") = false ∧
    recordedMountPoint "xyz" ≠ "unknown" ∧
    recordedMountPoint "xyz" = "(unknown)" := by
  refine ⟨by decide, by decide, by decide, by decide⟩

/-- Claim C3 (amended): the output
`"Mounted /dev/loop0 at /run/media/user/ISOIMAGE."` parses to the mount
point `/run/media/user/ISOIMAGE`; for every output containing neither a
token beginning with a recognized mount-root path nor the word `at`, the
recorded mount point is the sentinel string `"(unknown)"` (rather than
`"unknown"`), and the mount operation still succeeds rather than
raising. -/
theorem c3_mount_point_parsing_amended (out : String)
    (hp : ∀ p ∈ toTokens out, mountRootOk (pyRstripDotSemi p) = false)
    (ha : ∀ p ∈ toTokens out, (p == "at") = false) :
    parse_mount_point "Mounted /dev/loop0 at /run/media/user/ISOIMAGE." =
      some "/run/media/user/ISOIMAGE" ∧
    recordedMountPoint out = "(unknown)" ∧
    do_mount simplePre unreportedEnv =
      (.mounted "/dev/loop0" "/dev/loop0" "(unknown)", []) := by
  refine ⟨by decide, ?_, by decide⟩
  have h1 : (toTokens out).find? (fun p => mountRootOk (pyRstripDotSemi p)) = none := by
    rw [List.find?_eq_none]
    intro x hx
    simp [hp x hx]
  have h2 : List.findIdx? (fun p => p == "at") (toTokens out) = none :=
    findIdx?_none_of_all _ _ 0 ha
  simp [recordedMountPoint, parse_mount_point, h1, h2]

/-- Witness for `c3_mount_point_parsing_amended` on the concrete
token-free output. -/
theorem c3_mount_point_parsing_amended_witness :
    recordedMountPoint "xyz" = "(unknown)" :=
  (c3_mount_point_parsing_amended "xyz" (by decide) (by decide)).2.1

/-! ## C9 — loop-device token acceptance -/

/-- Claim C9 counterexample: the claim's prefix-stripping
characterization rejects the token `/dev/loop/dev/loop0` (its suffix
after the `/dev/loop` prefix, with `p` characters deleted, is not a
digit string), yet the parser accepts and returns it, because the source
deletes every occurrence of the substring `/dev/loop`, not just the
leading prefix. -/
theorem c9_counterexample :
    parse_loop_dev "/dev/loop/dev/loop0" = some "/dev/loop/dev/loop0" ∧
    claimLoopTokenOk "/dev/loop/dev/loop0" = false ∧
    (toTokens "/dev/loop/dev/loop0").all
      (fun t => !claimLoopTokenOk (pyRstripDotSemi (pyStrip t))) = true := by
  refine ⟨by decide, by decide, by decide⟩

/-- Claim C9 (amended): the parser returns the first whitespace token
that, after stripping trailing `.` and `;`, starts with `/dev/loop` and
whose text after deleting every occurrence of the substring `/dev/loop`
(not only the leading prefix) and then every `p` character is a
non-empty digit string — so any returned token is a cleaned token of the
output accepted by that test, the bare `/dev/loop` is rejected, a
partition path such as `/dev/loop0p1` and a malformed token such as
`/dev/loopp1` are accepted and recorded as the loop device itself, and
the first acceptable token wins. -/
theorem c9_loop_parse_amended (out t : String)
    (hsome : parse_loop_dev out = some t) :
    (loopTokenOk t = true ∧
      t ∈ (toTokens out).map (fun tok => pyRstripDotSemi (pyStrip tok))) ∧
    parse_loop_dev "/dev/loop" = none ∧
    parse_loop_dev "ok /dev/loop0p1." = some "/dev/loop0p1" ∧
    parse_loop_dev "/dev/loopp1" = some "/dev/loopp1" ∧
    parse_loop_dev "/dev/loop1 /dev/loop2" = some "/dev/loop1" := by
  refine ⟨⟨List.find?_some hsome, List.mem_of_find?_eq_some hsome⟩,
    by decide, by decide, by decide, by decide⟩

/-- Witness for `c9_loop_parse_amended` on a concrete `loop-setup`
output. -/
theorem c9_loop_parse_amended_witness :
    loopTokenOk "/dev/loop0" = true ∧
    "/dev/loop0" ∈ (toTokens "Mapped file a.iso as /dev/loop0.").map
      (fun tok => pyRstripDotSemi (pyStrip tok)) ∧
    parse_loop_dev "/dev/loop" = none :=
  have h := c9_loop_parse_amended "Mapped file a.iso as /dev/loop0." "/dev/loop0" (by decide)
  ⟨h.1.1, h.1.2, h.2.1⟩

end NMount
